import Mathlib

/-!
Shallow embedding of `src/snntorch/backprop.py`.

The module drives truncated backpropagation through time (`TBPTT`) and its
two specializations `BPTT` (`K = num_steps`) and `RTRL` (`K = 1`), plus the
stub `BPTF`.  External collaborators (network forward passes, the optimizer,
the criterion, the regularizer, hidden-state resets/detaches) are modelled as
opaque functions together with an explicit event trace that records, in
program order, every call the scheduler makes to a collaborator.  Python
floats are modelled as exact rationals, Python ints as `Nat` (all quantities
in the claims are nonnegative), Python lists/tensors of targets as Lean
lists, and Python's possibly-unbound locals `loss_spk` / `reg_spk` as
`Option Bool` (with `none` turning into an `UnboundLocalError`-style
`Err.nameError` at the use site, exactly where CPython would raise).
Device placement (`.to(device)`, `net.train()`) has no observable effect in
this model and is omitted.
-/

set_option maxRecDepth 10000

/-- Python exceptions raised (or raisable) by `backprop.py`:
`ValueError` (the `K > num_steps` guard at line 92f and tuple-unpacking
mismatches), `TypeError` (the — dead — criterion check at line 137ff),
`NameError` (covers CPython's `UnboundLocalError` for locals used before
assignment), `IndexError` (out-of-range `data[step]`), `ZeroDivisionError`
(`num_steps % K` with `K = 0`), and `NotImplementedError` (never raised by
the source; present so the spec's `BPTF` contract is statable). -/
inductive Err where
  | valueError (msg : String)
  | typeError (msg : String)
  | nameError (msg : String)
  | indexError
  | zeroDivisionError
  | notImplementedError
  deriving DecidableEq

/-- Trace events: one per call the scheduler makes into a collaborator.
`τ` is the type of spike/membrane tensors, `γ` the type of one target entry.
`batchLoad` marks the dataloader yielding a batch, `resetNet` a
`utils.reset(net)` call, `forwardPass s` the forward call at time step `s`,
`criterionCall buf tgt` the loss evaluation on the stacked buffer and the
target argument actually passed, `regCall buf` a regularizer evaluation,
`zeroGrad` / `backward l` / `optStep` the optimizer interactions (with the
scalar `loss_trunc` value handed to `.backward()`), and `detachHidden` the
detach broadcast over the discovered recurrent units. -/
inductive Event (τ γ : Type) where
  | resetNet
  | batchLoad
  | forwardPass (step : ℕ)
  | criterionCall (buf : List τ) (tgt : List γ)
  | regCall (buf : List τ)
  | zeroGrad
  | backward (loss : ℚ)
  | optStep
  | detachHidden
  deriving DecidableEq

/-- The network collaborator: hidden state `σ`, input tensors `ι`, output
tensors `τ`.  `reset` is `utils.reset(net)`, `numReturn` the arity computed
by `utils._final_layer_check(net)` (line 147), and `forward` the stateful
forward pass returning the output tuple as a list (`output[0]` is the spike
signal, `output[-1]` the membrane signal). -/
structure Net (σ ι τ : Type) where
  init : σ
  reset : σ → σ
  numReturn : ℕ
  forward : σ → ι → σ × List τ

/-- The criterion collaborator: its registered `__name__`, its
`time_var_targets` attribute (read at line 135 when the dispatch table marks
the entry as time-varying), and the loss function itself. -/
structure Criterion (τ γ : Type) where
  name : String
  time_var_targets : Bool
  app : List τ → List γ → ℚ

/-- The regularizer collaborator: its registered `__name__` and the penalty
function. -/
structure Regularizer (τ : Type) where
  name : String
  app : List τ → ℚ

/-- One `(data, targets)` pair from the dataloader.  `data` is the whole
batch tensor (fed unchanged when `time_var` is false), `dataAt s` is
`data[s]` (with `none` for an out-of-range index), and `targets` is the
target tensor viewed along its leading axis so Python slicing is list
slicing. -/
structure Batch (ι γ : Type) where
  data : ι
  dataAt : ℕ → Option ι
  targets : List γ

/-- The argument record of `TBPTT` (line 9ff).  The optimizer is opaque and
appears only through trace events; `device` is dropped (no observable
effect in this model). -/
structure Args (σ ι τ γ : Type) where
  net : Net σ ι τ
  dataloader : List (Batch ι γ)
  num_steps : ℕ
  criterion : Criterion τ γ
  time_var : Bool
  regularization : Option (Regularizer τ)
  K : ℕ

/-- The mutable locals of the training loop (lines 149-157 and the per-batch
loop), plus the accumulated event trace. -/
structure LoopState (σ τ γ : Type) where
  netState : σ
  step_trunc : ℕ
  K_count : ℕ
  loss_trunc : ℚ
  loss_avg : ℚ
  spk_rec_trunc : List τ
  mem_rec_trunc : List τ
  events : List (Event τ γ)

/-- The criterion dispatch table of lines 110-119, in source order.  First
component of the value: `loss_spk` (criterion consumes spikes); second:
whether the entry has (potentially) time-varying targets. -/
def criterion_dict : List (String × (Bool × Bool)) :=
  [("mse_membrane_loss", (false, true)),
   ("ce_max_membrane_loss", (false, false)),
   ("ce_rate_loss", (true, false)),
   ("ce_count_loss", (true, false)),
   ("mse_count_loss", (true, false))]

/-- The regularizer dispatch table of line 121. -/
def reg_dict : List (String × Bool) := [("l1_rate_sparsity", true)]

/-- The message of the `ValueError` raised at line 93. -/
def kErrMsg : String := "K must be less than or equal to num_steps."

/-- Lines 127-140: resolve the criterion name.  Translates the loop
faithfully, including the slip that `counter -= 1` runs on every iteration
(not only on non-matching keys), so `counter` always ends at `0` and the
`TypeError` branch is dead.  Returns `(loss_spk, time_var_targets)` where
`loss_spk = none` models the local staying unbound when no key matches. -/
def resolveCriterion {τ γ : Type} (criterion : Criterion τ γ) :
    Except Err (Option Bool × Bool) :=
  let r := criterion_dict.foldl
    (fun (st : Option Bool × Bool × Int) entry =>
      let upd :=
        if entry.1 = criterion.name then
          if entry.2.2 then (some entry.2.1, criterion.time_var_targets)
          else (some entry.2.1, entry.2.2)
        else (st.1, st.2.1)
      (upd.1, upd.2, st.2.2 - 1))
    ((none : Option Bool), false, (criterion_dict.length : Int))
  if r.2.2 ≠ 0 then
    .error (.typeError "criterion must be one of the loss functions in snntorch.functional")
  else .ok (r.1, r.2.1)

/-- Lines 142-145: resolve the regularizer name, best effort.  `none` models
the local `reg_spk` staying unbound (either no regularizer was supplied, or
its name matched no key). -/
def resolveReg {τ : Type} (regularization : Option (Regularizer τ)) : Option Bool :=
  match regularization with
  | none => none
  | some r => reg_dict.foldl (fun acc entry => if entry.1 = r.name then some entry.2 else acc) none

/-- Python list/tensor slicing `l[lo:hi]` for nonnegative bounds (clips at
the length, empty when `hi ≤ lo`). -/
def pySlice {γ : Type} (l : List γ) (lo hi : ℕ) : List γ := (l.drop lo).take (hi - lo)

/-- The criterion part of a window close (lines 210-225 resp. 259-274):
pick the stacked spike or membrane buffer according to `loss_spk`, slice the
targets when `time_var_targets`, and call the criterion.  Reading an unbound
`loss_spk` raises.  Returns the loss and the events emitted. -/
def critLoss {τ γ : Type} (criterion : Criterion τ γ) (loss_spk : Option Bool)
    (time_var_targets : Bool) (targets : List γ) (lo hi : ℕ)
    (spkStack memStack : List τ) :
    Except (Err × List (Event τ γ)) (ℚ × List (Event τ γ)) :=
  if time_var_targets then
    match loss_spk with
    | none => .error (.nameError "loss_spk", [])
    | some ls =>
      let tgt := pySlice targets lo hi
      let buf := if ls then spkStack else memStack
      .ok (criterion.app buf tgt, [.criterionCall buf tgt])
  else
    match loss_spk with
    | none => .error (.nameError "loss_spk", [])
    | some ls =>
      let buf := if ls then spkStack else memStack
      .ok (criterion.app buf targets, [.criterionCall buf targets])

/-- A full window loss (criterion plus optional regularization,
lines 210-231 resp. 259-280).  Reading an unbound `reg_spk` raises. -/
def windowLoss {τ γ : Type} (criterion : Criterion τ γ)
    (regularization : Option (Regularizer τ)) (loss_spk reg_spk : Option Bool)
    (time_var_targets : Bool) (targets : List γ) (lo hi : ℕ)
    (spkStack memStack : List τ) :
    Except (Err × List (Event τ γ)) (ℚ × List (Event τ γ)) :=
  match critLoss criterion loss_spk time_var_targets targets lo hi spkStack memStack with
  | .error e => .error e
  | .ok (loss, evs) =>
    match regularization with
    | none => .ok (loss, evs)
    | some r =>
      match reg_spk with
      | none => .error (.nameError "reg_spk", evs)
      | some rs =>
        let rbuf := if rs then spkStack else memStack
        .ok (loss + r.app rbuf, evs ++ [.regCall rbuf])

/-- The mid-sequence window close (lines 199-250), entered when
`step_trunc == K`: stack the buffers, compute the (possibly sliced,
`targets[K_count*K : (K_count+1)*K]`) window loss, accumulate
`loss_avg += loss / (num_steps / K)` (Python true division, exact here),
zero gradients / backward on `loss_trunc` / optimizer step, detach hidden
state, then advance `K_count` and clear `step_trunc`, `loss_trunc` and both
truncation buffers. -/
def closeFull {σ ι τ γ : Type} (a : Args σ ι τ γ) (loss_spk : Option Bool)
    (time_var_targets : Bool) (reg_spk : Option Bool) (b : Batch ι γ)
    (st : LoopState σ τ γ) :
    Except (Err × List (Event τ γ)) (LoopState σ τ γ) :=
  match windowLoss a.criterion a.regularization loss_spk reg_spk time_var_targets
      b.targets (st.K_count * a.K) ((st.K_count + 1) * a.K)
      st.spk_rec_trunc st.mem_rec_trunc with
  | .error (e, evs) => .error (e, st.events ++ evs)
  | .ok (loss, evs) =>
    let lt := st.loss_trunc + loss
    .ok { st with
      loss_trunc := 0,
      loss_avg := st.loss_avg + loss / ((a.num_steps : ℚ) / (a.K : ℚ)),
      spk_rec_trunc := [],
      mem_rec_trunc := [],
      step_trunc := 0,
      K_count := st.K_count + 1,
      events := st.events ++ evs ++
        [.zeroGrad, .backward lt, .optStep, .detachHidden] }

/-- The remainder window close (lines 252-297), entered after the step loop
when `num_steps % K != 0`: like `closeFull` but the target slice is
`targets[K_count*K : K_count*K + num_steps % K]`, the accumulation weight is
`1 / (num_steps % K)`, and `K_count` is reset to `0` (the counter resets
precede the detach broadcast on this path). -/
def closeRemainder {σ ι τ γ : Type} (a : Args σ ι τ γ) (loss_spk : Option Bool)
    (time_var_targets : Bool) (reg_spk : Option Bool) (b : Batch ι γ)
    (st : LoopState σ τ γ) :
    Except (Err × List (Event τ γ)) (LoopState σ τ γ) :=
  match windowLoss a.criterion a.regularization loss_spk reg_spk time_var_targets
      b.targets (st.K_count * a.K) (st.K_count * a.K + a.num_steps % a.K)
      st.spk_rec_trunc st.mem_rec_trunc with
  | .error (e, evs) => .error (e, st.events ++ evs)
  | .ok (loss, evs) =>
    let lt := st.loss_trunc + loss
    .ok { st with
      loss_trunc := 0,
      loss_avg := st.loss_avg + loss / ((a.num_steps % a.K : ℕ) : ℚ),
      spk_rec_trunc := [],
      mem_rec_trunc := [],
      step_trunc := 0,
      K_count := 0,
      events := st.events ++ evs ++
        [.zeroGrad, .backward lt, .optStep, .detachHidden] }

/-- Lines 170-194: pick the input for one forward call (`data[step]` when
`time_var`, the whole `data` otherwise). -/
def getInput {ι γ : Type} (time_var : Bool) (b : Batch ι γ) (step : ℕ) :
    Except Err ι :=
  if time_var then
    match b.dataAt step with
    | some d => .ok d
    | none => .error .indexError
  else .ok b.data

/-- Tuple unpacking of the forward outputs per the arity dispatch of
lines 170-187: `output[0]` is the spike signal, `output[-1]` the membrane
signal; a tuple of the wrong length fails to unpack. -/
def unpackOutputs {τ : Type} (numReturn : ℕ) (outs : List τ) :
    Except Err (τ × τ) :=
  match numReturn, outs with
  | 2, [spk, mem] => .ok (spk, mem)
  | 3, [spk, _, mem] => .ok (spk, mem)
  | 4, [spk, _, _, mem] => .ok (spk, mem)
  | _, _ => .error (.valueError "not enough values to unpack")

/-- One iteration of `for step in range(num_steps)` (lines 169-250): when
the arity is outside `{2, 3, 4}` no branch binds `spk`, so its first use at
line 195 raises; otherwise run the forward pass, append the spike and
membrane signals to the truncation buffers, bump `step_trunc`, and close the
window when `step_trunc == K`. -/
def runStep {σ ι τ γ : Type} (a : Args σ ι τ γ) (loss_spk : Option Bool)
    (time_var_targets : Bool) (reg_spk : Option Bool) (b : Batch ι γ)
    (step : ℕ) (st : LoopState σ τ γ) :
    Except (Err × List (Event τ γ)) (LoopState σ τ γ) :=
  if a.net.numReturn = 2 ∨ a.net.numReturn = 3 ∨ a.net.numReturn = 4 then
    match getInput a.time_var b step with
    | .error e => .error (e, st.events)
    | .ok d =>
      let fs := a.net.forward st.netState d
      let evs := st.events ++ [.forwardPass step]
      match unpackOutputs a.net.numReturn fs.2 with
      | .error e => .error (e, evs)
      | .ok (spk, mem) =>
        let st1 : LoopState σ τ γ :=
          { st with
            netState := fs.1,
            events := evs,
            spk_rec_trunc := st.spk_rec_trunc ++ [spk],
            mem_rec_trunc := st.mem_rec_trunc ++ [mem],
            step_trunc := st.step_trunc + 1 }
        if st1.step_trunc = a.K then
          closeFull a loss_spk time_var_targets reg_spk b st1
        else .ok st1
  else .error (.nameError "spk", st.events)

/-- The step loop: `n` remaining iterations starting at step index `step`. -/
def runSteps {σ ι τ γ : Type} (a : Args σ ι τ γ) (loss_spk : Option Bool)
    (time_var_targets : Bool) (reg_spk : Option Bool) (b : Batch ι γ) :
    ℕ → ℕ → LoopState σ τ γ → Except (Err × List (Event τ γ)) (LoopState σ τ γ)
  | 0, _, st => .ok st
  | n + 1, step, st =>
    match runStep a loss_spk time_var_targets reg_spk b step st with
    | .error e => .error e
    | .ok st' => runSteps a loss_spk time_var_targets reg_spk b n (step + 1) st'

/-- Lines 162-167: the dataloader yields a batch and the network state is
fully reset (`utils.reset(net)`) before the batch's first forward pass. -/
def batchStart {σ ι τ γ : Type} (a : Args σ ι τ γ) (st : LoopState σ τ γ) :
    LoopState σ τ γ :=
  { st with netState := a.net.reset st.netState,
            events := st.events ++ [.batchLoad, .resetNet] }

/-- One batch (lines 162-297): reset, run the `num_steps` step loop, then
the remainder check `if (step == num_steps - 1) and (num_steps % K):`.
With `num_steps = 0` the loop variable `step` was never bound, so the check
itself raises; `num_steps % K` with `K = 0` raises `ZeroDivisionError`. -/
def runBatch {σ ι τ γ : Type} (a : Args σ ι τ γ) (loss_spk : Option Bool)
    (time_var_targets : Bool) (reg_spk : Option Bool) (st : LoopState σ τ γ)
    (b : Batch ι γ) :
    Except (Err × List (Event τ γ)) (LoopState σ τ γ) :=
  match runSteps a loss_spk time_var_targets reg_spk b a.num_steps 0 (batchStart a st) with
  | .error e => .error e
  | .ok st' =>
    if a.num_steps = 0 then .error (.nameError "step", st'.events)
    else if a.K = 0 then .error (.zeroDivisionError, st'.events)
    else if a.num_steps % a.K ≠ 0 then
      closeRemainder a loss_spk time_var_targets reg_spk b st'
    else .ok st'

/-- The epoch loop over the dataloader. -/
def runEpoch {σ ι τ γ : Type} (a : Args σ ι τ γ) (loss_spk : Option Bool)
    (time_var_targets : Bool) (reg_spk : Option Bool) :
    List (Batch ι γ) → LoopState σ τ γ →
    Except (Err × List (Event τ γ)) (LoopState σ τ γ)
  | [], st => .ok st
  | b :: bs, st =>
    match runBatch a loss_spk time_var_targets reg_spk st b with
    | .error e => .error e
    | .ok st' => runEpoch a loss_spk time_var_targets reg_spk bs st'

/-- The loop locals as initialized at lines 97 and 149-157: counters and
accumulators at zero, empty truncation buffers, and the trace already
holding the `utils.reset(net)` call of line 97. -/
def initLoopState {σ ι τ γ : Type} (a : Args σ ι τ γ) : LoopState σ τ γ :=
  { netState := a.net.reset a.net.init, step_trunc := 0, K_count := 0,
    loss_trunc := 0, loss_avg := 0, spk_rec_trunc := [], mem_rec_trunc := [],
    events := [.resetNet] }

/-- `TBPTT` (lines 9-300): validate `K`, reset once, resolve the criterion
and regularizer names, run the epoch, and return `loss_avg` together with
the full event trace; an uncaught exception propagates with the trace of
everything the scheduler did before it. -/
def TBPTT {σ ι τ γ : Type} (a : Args σ ι τ γ) :
    Except (Err × List (Event τ γ)) (ℚ × List (Event τ γ)) :=
  if a.K > a.num_steps then .error (.valueError kErrMsg, [])
  else
    match resolveCriterion a.criterion with
    | .error e => .error (e, (initLoopState a).events)
    | .ok (loss_spk, time_var_targets) =>
      let reg_spk := resolveReg a.regularization
      match runEpoch a loss_spk time_var_targets reg_spk a.dataloader (initLoopState a) with
      | .error e => .error e
      | .ok st => .ok (st.loss_avg, st.events)

/-- `BPTT` (lines 303-394): delegates to `TBPTT` with `K = num_steps`. -/
def BPTT {σ ι τ γ : Type} (net : Net σ ι τ) (dataloader : List (Batch ι γ))
    (num_steps : ℕ) (criterion : Criterion τ γ) (time_var : Bool)
    (regularization : Option (Regularizer τ)) :
    Except (Err × List (Event τ γ)) (ℚ × List (Event τ γ)) :=
  TBPTT { net := net, dataloader := dataloader, num_steps := num_steps,
          criterion := criterion, time_var := time_var,
          regularization := regularization, K := num_steps }

/-- `RTRL` (lines 397-491): delegates to `TBPTT` with `K = 1`. -/
def RTRL {σ ι τ γ : Type} (net : Net σ ι τ) (dataloader : List (Batch ι γ))
    (num_steps : ℕ) (criterion : Criterion τ γ) (time_var : Bool)
    (regularization : Option (Regularizer τ)) :
    Except (Err × List (Event τ γ)) (ℚ × List (Event τ γ)) :=
  TBPTT { net := net, dataloader := dataloader, num_steps := num_steps,
          criterion := criterion, time_var := time_var,
          regularization := regularization, K := 1 }

/-- `BPTF` (lines 494-575): the body is only a docstring, so the call does
nothing and returns Python `None` (modelled as `none`), with an empty event
trace — it neither raises nor touches any collaborator. -/
def BPTF {σ ι τ γ : Type} (a : Args σ ι τ γ) :
    Except (Err × List (Event τ γ)) (Option ℚ × List (Event τ γ)) :=
  .ok (none, [])

/-- Number of optimizer `step()` calls recorded in a trace. -/
def countOpt {τ γ : Type} (evts : List (Event τ γ)) : ℕ :=
  evts.countP fun e => match e with | .optStep => true | _ => false

/-- The target arguments handed to the criterion, in call order. -/
def criterionTargets {τ γ : Type} (evts : List (Event τ γ)) : List (List γ) :=
  evts.filterMap fun e => match e with | .criterionCall _ t => some t | _ => none

/-- The event trace of a finished or aborted `TBPTT` run. -/
def traceOf {τ γ : Type} (r : Except (Err × List (Event τ γ)) (ℚ × List (Event τ γ))) :
    List (Event τ γ) :=
  match r with
  | .error (_, t) => t
  | .ok (_, t) => t

/-- The returned epoch loss of a successful `TBPTT` run. -/
def lossOf {τ γ : Type} (r : Except (Err × List (Event τ γ)) (ℚ × List (Event τ γ))) :
    Option ℚ :=
  match r with
  | .error _ => none
  | .ok (l, _) => some l

/-- Extract the final state of a batch-level run, with a fallback. -/
def stateOrDefault {σ τ γ : Type}
    (r : Except (Err × List (Event τ γ)) (LoopState σ τ γ))
    (d : LoopState σ τ γ) : LoopState σ τ γ :=
  match r with
  | .ok st => st
  | .error _ => d

/-- `K_count` after a batch-level run, when it succeeded. -/
def kcAfter {σ τ γ : Type}
    (r : Except (Err × List (Event τ γ)) (LoopState σ τ γ)) : Option ℕ :=
  match r with
  | .ok st => some st.K_count
  | .error _ => none

/-- A minimal network for concrete runs: stateless, two outputs. -/
def unitNet : Net Unit Unit Unit :=
  { init := (), reset := fun s => s, numReturn := 2,
    forward := fun s _ => (s, [(), ()]) }

/-- A criterion stub with a constant loss value, used to drive concrete
runs of the scheduler. -/
def mkCrit (name : String) (tvt : Bool) (L : ℚ) : Criterion Unit ℕ :=
  { name := name, time_var_targets := tvt, app := fun _ _ => L }

/-- A batch with static data and targets `[0, 1, ..., n-1]`. -/
def rangeBatch (n : ℕ) : Batch Unit ℕ :=
  { data := (), dataAt := fun _ => some (), targets := List.range n }

/-- Assemble `TBPTT` arguments over the minimal collaborators. -/
def mkArgs (dl : List (Batch Unit ℕ)) (ns K : ℕ) (crit : Criterion Unit ℕ)
    (reg : Option (Regularizer Unit)) : Args Unit Unit Unit ℕ :=
  { net := unitNet, dataloader := dl, num_steps := ns, criterion := crit,
    time_var := false, regularization := reg, K := K }

/-- Concrete run for claim C2: one batch, `num_steps = 10`, `K = 3`,
recognized spike criterion returning the constant loss `L`. -/
def c2args (L : ℚ) : Args Unit Unit Unit ℕ :=
  mkArgs [rangeBatch 10] 10 3 (mkCrit "ce_rate_loss" false L) none

/-- Concrete run for claim C3: unrecognized criterion name. -/
def c3crit : Criterion Unit ℕ := mkCrit "unknown_loss" false 0

/-- C3 arguments: `num_steps = K = 1`, one batch. -/
def c3args : Args Unit Unit Unit ℕ := mkArgs [rangeBatch 10] 1 1 c3crit none

/-- Concrete run for claim C4: recognized criterion, unrecognized
regularizer name. -/
def c4args : Args Unit Unit Unit ℕ :=
  mkArgs [rangeBatch 10] 1 1 (mkCrit "ce_rate_loss" false 0)
    (some { name := "unknown_reg", app := fun _ => 5 })

/-- The C4 run with the regularizer removed and nothing else changed. -/
def c4argsNoReg : Args Unit Unit Unit ℕ :=
  mkArgs [rangeBatch 10] 1 1 (mkCrit "ce_rate_loss" false 0) none

/-- Concrete run for claim C5: `num_steps = 10`, `K = 3`, membrane
criterion with time-varying targets, targets `[0, ..., 9]`. -/
def c5args : Args Unit Unit Unit ℕ :=
  mkArgs [rangeBatch 10] 10 3 (mkCrit "mse_membrane_loss" true 0) none

/-- Concrete run for claim C6: two batches, `num_steps = 2`, `K = 2`
(so `K` divides `num_steps` and the remainder path never runs),
time-varying targets; the batches carry distinct targets. -/
def c6b1 : Batch Unit ℕ := { data := (), dataAt := fun _ => some (), targets := [10, 11] }

/-- Second batch of the C6 run. -/
def c6b2 : Batch Unit ℕ := { data := (), dataAt := fun _ => some (), targets := [20, 21] }

/-- C6 arguments. -/
def c6args : Args Unit Unit Unit ℕ :=
  mkArgs [c6b1, c6b2] 2 2 (mkCrit "mse_membrane_loss" true 0) none

/-- Concrete run for claim C8's counterexample: `K = 0` violates the
precondition `1 ≤ K` but passes the (only) guard `K > num_steps`. -/
def c8args : Args Unit Unit Unit ℕ := mkArgs [rangeBatch 10] 1 0 (mkCrit "ce_rate_loss" false 0) none

/-- Concrete arguments for claim C10. -/
def c10args : Args Unit Unit Unit ℕ := mkArgs [rangeBatch 10] 1 1 (mkCrit "ce_rate_loss" false 0) none

theorem countOpt_nil {τ γ : Type} : countOpt ([] : List (Event τ γ)) = 0 := rfl

theorem countOpt_append {τ γ : Type} (l1 l2 : List (Event τ γ)) :
    countOpt (l1 ++ l2) = countOpt l1 + countOpt l2 :=
  List.countP_append _ _ _

theorem criterionTargets_append {τ γ : Type} (l1 l2 : List (Event τ γ)) :
    criterionTargets (l1 ++ l2) = criterionTargets l1 ++ criterionTargets l2 :=
  List.filterMap_append _ _ _

theorem windowLoss_ok_spec {τ γ : Type} {criterion : Criterion τ γ}
    {regularization : Option (Regularizer τ)} {loss_spk reg_spk : Option Bool}
    {tvt : Bool} {targets : List γ} {lo hi : ℕ} {s m : List τ}
    {l : ℚ} {evs : List (Event τ γ)}
    (h : windowLoss criterion regularization loss_spk reg_spk tvt targets lo hi s m
          = .ok (l, evs)) :
    countOpt evs = 0 ∧
    (tvt = true → criterionTargets evs = [pySlice targets lo hi]) := by
  unfold windowLoss at h
  cases hc : critLoss criterion loss_spk tvt targets lo hi s m with
  | error e => rw [hc] at h; cases h
  | ok p =>
    obtain ⟨loss0, evs0⟩ := p
    rw [hc] at h
    have hspec : countOpt evs0 = 0 ∧
        (tvt = true → criterionTargets evs0 = [pySlice targets lo hi]) := by
      cases tvt <;> cases loss_spk <;> simp [critLoss] at hc <;>
        simp [← hc.2, countOpt, criterionTargets, List.countP, List.countP.go]
    cases regularization with
    | none =>
      simp at h
      rw [← h.2]
      exact hspec
    | some r =>
      cases reg_spk with
      | none => simp at h
      | some rs =>
        simp at h
        rw [← h.2]
        constructor
        · rw [countOpt_append, hspec.1]; rfl
        · intro ht
          rw [criterionTargets_append, hspec.2 ht]; rfl

theorem closeFull_ok_spec {σ ι τ γ : Type} {a : Args σ ι τ γ} {ls : Option Bool}
    {tvt : Bool} {rs : Option Bool} {b : Batch ι γ} {st st' : LoopState σ τ γ}
    (h : closeFull a ls tvt rs b st = .ok st') :
    st'.step_trunc = 0 ∧ st'.spk_rec_trunc = [] ∧ st'.mem_rec_trunc = [] ∧
    st'.loss_trunc = 0 ∧ st'.K_count = st.K_count + 1 ∧
    countOpt st'.events = countOpt st.events + 1 := by
  unfold closeFull at h
  cases hw : windowLoss a.criterion a.regularization ls rs tvt b.targets
      (st.K_count * a.K) ((st.K_count + 1) * a.K) st.spk_rec_trunc st.mem_rec_trunc with
  | error e => rw [hw] at h; obtain ⟨e1, e2⟩ := e; cases h
  | ok p =>
    obtain ⟨l, evs⟩ := p
    rw [hw] at h
    simp only [Except.ok.injEq] at h
    subst h
    refine ⟨rfl, rfl, rfl, rfl, rfl, ?_⟩
    simp only [countOpt_append, (windowLoss_ok_spec hw).1]
    rfl

theorem closeRemainder_ok_spec {σ ι τ γ : Type} {a : Args σ ι τ γ}
    {ls : Option Bool} {tvt : Bool} {rs : Option Bool} {b : Batch ι γ}
    {st st' : LoopState σ τ γ}
    (h : closeRemainder a ls tvt rs b st = .ok st') :
    st'.step_trunc = 0 ∧ st'.spk_rec_trunc = [] ∧ st'.mem_rec_trunc = [] ∧
    st'.loss_trunc = 0 ∧ st'.K_count = 0 ∧
    countOpt st'.events = countOpt st.events + 1 := by
  unfold closeRemainder at h
  cases hw : windowLoss a.criterion a.regularization ls rs tvt b.targets
      (st.K_count * a.K) (st.K_count * a.K + a.num_steps % a.K)
      st.spk_rec_trunc st.mem_rec_trunc with
  | error e => rw [hw] at h; obtain ⟨e1, e2⟩ := e; cases h
  | ok p =>
    obtain ⟨l, evs⟩ := p
    rw [hw] at h
    simp only [Except.ok.injEq] at h
    subst h
    refine ⟨rfl, rfl, rfl, rfl, rfl, ?_⟩
    simp only [countOpt_append, (windowLoss_ok_spec hw).1]
    rfl

theorem countOpt_fwd {τ γ : Type} (n : ℕ) :
    countOpt ([.forwardPass n] : List (Event τ γ)) = 0 := rfl

theorem runStep_ok_spec {σ ι τ γ : Type} {a : Args σ ι τ γ} {ls : Option Bool}
    {tvt : Bool} {rs : Option Bool} {b : Batch ι γ} {step : ℕ}
    {st st' : LoopState σ τ γ}
    (h : runStep a ls tvt rs b step st = .ok st') :
    (st'.step_trunc = if st.step_trunc + 1 = a.K then 0 else st.step_trunc + 1) ∧
    (countOpt st'.events = countOpt st.events +
      if st.step_trunc + 1 = a.K then 1 else 0) ∧
    (st'.K_count = if st.step_trunc + 1 = a.K then st.K_count + 1 else st.K_count) ∧
    (st'.spk_rec_trunc.length =
      if st.step_trunc + 1 = a.K then 0 else st.spk_rec_trunc.length + 1) ∧
    (st'.mem_rec_trunc.length =
      if st.step_trunc + 1 = a.K then 0 else st.mem_rec_trunc.length + 1) ∧
    (st.step_trunc + 1 = a.K →
      st'.spk_rec_trunc = [] ∧ st'.mem_rec_trunc = [] ∧ st'.loss_trunc = 0) := by
  unfold runStep at h
  by_cases hnr : a.net.numReturn = 2 ∨ a.net.numReturn = 3 ∨ a.net.numReturn = 4
  · rw [if_pos hnr] at h
    cases hi : getInput a.time_var b step with
    | error e => rw [hi] at h; simp at h
    | ok d =>
      rw [hi] at h
      simp only [] at h
      cases hu : unpackOutputs a.net.numReturn (a.net.forward st.netState d).2 with
      | error e => rw [hu] at h; simp at h
      | ok p =>
        obtain ⟨spk, mem⟩ := p
        rw [hu] at h
        simp only [] at h
        by_cases hcl : st.step_trunc + 1 = a.K
        · rw [if_pos hcl] at h
          obtain ⟨h1, h2, h3, h4, h5, h6⟩ := closeFull_ok_spec h
          simp only [] at h1 h2 h3 h4 h5 h6
          rw [if_pos hcl, if_pos hcl, if_pos hcl, if_pos hcl, if_pos hcl]
          refine ⟨h1, ?_, h5, by rw [h2]; rfl, by rw [h3]; rfl,
            fun _ => ⟨h2, h3, h4⟩⟩
          rw [h6, countOpt_append, countOpt_fwd]
        · rw [if_neg hcl] at h
          simp only [Except.ok.injEq] at h
          subst h
          rw [if_neg hcl, if_neg hcl, if_neg hcl, if_neg hcl, if_neg hcl]
          refine ⟨rfl, ?_, rfl, by simp, by simp, fun hk => absurd hk hcl⟩
          simp only [countOpt_append, countOpt_fwd]
  · rw [if_neg hnr] at h; cases h

theorem runSteps_ok_spec {σ ι τ γ : Type} (a : Args σ ι τ γ) (ls : Option Bool)
    (tvt : Bool) (rs : Option Bool) (b : Batch ι γ) :
    ∀ (n step : ℕ) (st st' : LoopState σ τ γ), st.step_trunc < a.K →
      runSteps a ls tvt rs b n step st = .ok st' →
      countOpt st'.events = countOpt st.events + (st.step_trunc + n) / a.K ∧
      st'.K_count = st.K_count + (st.step_trunc + n) / a.K ∧
      st'.step_trunc = (st.step_trunc + n) % a.K := by
  intro n
  induction n with
  | zero =>
    intro step st st' hlt h
    simp only [runSteps, Except.ok.injEq] at h
    subst h
    rw [Nat.add_zero, Nat.div_eq_of_lt hlt, Nat.mod_eq_of_lt hlt]
    exact ⟨rfl, rfl, rfl⟩
  | succ n ih =>
    intro step st st' hlt h
    simp only [runSteps] at h
    cases hrs : runStep a ls tvt rs b step st with
    | error e => rw [hrs] at h; cases h
    | ok st1 =>
      rw [hrs] at h
      obtain ⟨h1, h2, h3, _, _, _⟩ := runStep_ok_spec hrs
      by_cases hcl : st.step_trunc + 1 = a.K
      · rw [if_pos hcl] at h1 h2 h3
        have hK : 0 < a.K := by omega
        have hlt1 : st1.step_trunc < a.K := by rw [h1]; exact hK
        obtain ⟨c1, c2, c3⟩ := ih (step + 1) st1 st' hlt1 h
        have he : st.step_trunc + (n + 1) = a.K + n := by omega
        refine ⟨?_, ?_, ?_⟩
        · rw [c1, h2, h1, he, Nat.zero_add, Nat.add_div_left n hK]
          omega
        · rw [c2, h3, h1, he, Nat.zero_add, Nat.add_div_left n hK]
          omega
        · rw [c3, h1, he, Nat.zero_add, Nat.add_mod_left]
      · rw [if_neg hcl] at h1 h2 h3
        have hlt1 : st1.step_trunc < a.K := by omega
        obtain ⟨c1, c2, c3⟩ := ih (step + 1) st1 st' hlt1 h
        have he : st.step_trunc + 1 + n = st.step_trunc + (n + 1) := by omega
        refine ⟨?_, ?_, ?_⟩
        · rw [c1, h2, h1, he]; omega
        · rw [c2, h3, h1, he]
        · rw [c3, h1, he]

theorem countOpt_batchStart {σ ι τ γ : Type} (a : Args σ ι τ γ)
    (st : LoopState σ τ γ) :
    countOpt (batchStart a st).events = countOpt st.events := by
  show countOpt (st.events ++ [.batchLoad, .resetNet]) = countOpt st.events
  rw [countOpt_append]
  rfl

theorem runBatch_ok_spec {σ ι τ γ : Type} {a : Args σ ι τ γ} {ls : Option Bool}
    {tvt : Bool} {rs : Option Bool} {b : Batch ι γ} {st st' : LoopState σ τ γ}
    (hK : 1 ≤ a.K) (hst : st.step_trunc = 0)
    (h : runBatch a ls tvt rs st b = .ok st') :
    countOpt st'.events = countOpt st.events +
      (a.num_steps / a.K + if a.num_steps % a.K = 0 then 0 else 1) ∧
    st'.step_trunc = 0 := by
  unfold runBatch at h
  cases hrs : runSteps a ls tvt rs b a.num_steps 0 (batchStart a st) with
  | error e => rw [hrs] at h; cases h
  | ok st1 =>
    rw [hrs] at h
    simp only [] at h
    have hbs : (batchStart a st).step_trunc < a.K := by
      show st.step_trunc < a.K
      omega
    obtain ⟨c1, _, c3⟩ := runSteps_ok_spec a ls tvt rs b a.num_steps 0
      (batchStart a st) st1 hbs hrs
    rw [countOpt_batchStart] at c1
    have hbs0 : (batchStart a st).step_trunc = st.step_trunc := rfl
    rw [hbs0, hst, Nat.zero_add] at c1 c3
    have hns0 : ¬ a.num_steps = 0 ∨ a.num_steps = 0 := by omega
    by_cases hz : a.num_steps = 0
    · rw [if_pos hz] at h; cases h
    · rw [if_neg hz] at h
      have hk0 : ¬ a.K = 0 := by omega
      rw [if_neg hk0] at h
      by_cases hrem : a.num_steps % a.K = 0
      · rw [if_neg (by simpa using hrem)] at h
        simp only [Except.ok.injEq] at h
        subst h
        rw [if_pos hrem]
        exact ⟨by rw [c1]; omega, by rw [c3, hrem]⟩
      · rw [if_pos (by simpa using hrem)] at h
        obtain ⟨r1, _, _, _, _, r6⟩ := closeRemainder_ok_spec h
        rw [if_neg hrem]
        exact ⟨by rw [r6, c1]; omega, r1⟩

theorem ceil_div_split {n K : ℕ} (hK : 1 ≤ K) :
    n / K + (if n % K = 0 then 0 else 1) = (n + K - 1) / K := by
  have hd := Nat.div_add_mod n K
  have hm : n % K < K := Nat.mod_lt n (by omega)
  by_cases h : n % K = 0
  · rw [if_pos h]
    have he : n + K - 1 = K * (n / K) + (K - 1) := by omega
    rw [he, Nat.mul_add_div (by omega : 0 < K),
      Nat.div_eq_of_lt (show K - 1 < K by omega)]
  · rw [if_neg h]
    have hmul : K * (n / K + 1) = K * (n / K) + K := by ring
    have he : n + K - 1 = K * (n / K + 1) + (n % K - 1) := by rw [hmul]; omega
    rw [he, Nat.mul_add_div (by omega : 0 < K),
      Nat.div_eq_of_lt (show n % K - 1 < K by omega)]

theorem critLoss_benign {τ γ : Type} {criterion : Criterion τ γ}
    {ls : Option Bool} {tvt : Bool} {targets : List γ} {lo hi : ℕ}
    {s m : List τ} {e : Err} {evs : List (Event τ γ)}
    (h : critLoss criterion ls tvt targets lo hi s m = .error (e, evs)) :
    e ≠ .valueError kErrMsg := by
  cases tvt <;> cases ls <;> simp [critLoss] at h <;> rw [← h.1] <;> simp

theorem windowLoss_benign {τ γ : Type} {criterion : Criterion τ γ}
    {regularization : Option (Regularizer τ)} {ls rs : Option Bool} {tvt : Bool}
    {targets : List γ} {lo hi : ℕ} {s m : List τ} {e : Err}
    {evs : List (Event τ γ)}
    (h : windowLoss criterion regularization ls rs tvt targets lo hi s m
          = .error (e, evs)) :
    e ≠ .valueError kErrMsg := by
  unfold windowLoss at h
  cases hc : critLoss criterion ls tvt targets lo hi s m with
  | error p =>
    obtain ⟨e0, evs0⟩ := p
    rw [hc] at h
    simp only [Except.error.injEq, Prod.mk.injEq] at h
    rw [← h.1]
    exact critLoss_benign hc
  | ok p =>
    obtain ⟨l, evs0⟩ := p
    rw [hc] at h
    cases regularization with
    | none => simp at h
    | some r =>
      cases rs with
      | none =>
        simp only [Except.error.injEq, Prod.mk.injEq] at h
        rw [← h.1]
        simp
      | some rsb => simp at h

theorem closeFull_benign {σ ι τ γ : Type} {a : Args σ ι τ γ} {ls : Option Bool}
    {tvt : Bool} {rs : Option Bool} {b : Batch ι γ} {st : LoopState σ τ γ}
    {e : Err} {evs : List (Event τ γ)}
    (h : closeFull a ls tvt rs b st = .error (e, evs)) :
    e ≠ .valueError kErrMsg := by
  unfold closeFull at h
  cases hw : windowLoss a.criterion a.regularization ls rs tvt b.targets
      (st.K_count * a.K) ((st.K_count + 1) * a.K) st.spk_rec_trunc st.mem_rec_trunc with
  | error p =>
    obtain ⟨e0, evs0⟩ := p
    rw [hw] at h
    simp only [Except.error.injEq, Prod.mk.injEq] at h
    rw [← h.1]
    exact windowLoss_benign hw
  | ok p =>
    obtain ⟨l, evs0⟩ := p
    rw [hw] at h
    simp at h

theorem closeRemainder_benign {σ ι τ γ : Type} {a : Args σ ι τ γ}
    {ls : Option Bool} {tvt : Bool} {rs : Option Bool} {b : Batch ι γ}
    {st : LoopState σ τ γ} {e : Err} {evs : List (Event τ γ)}
    (h : closeRemainder a ls tvt rs b st = .error (e, evs)) :
    e ≠ .valueError kErrMsg := by
  unfold closeRemainder at h
  cases hw : windowLoss a.criterion a.regularization ls rs tvt b.targets
      (st.K_count * a.K) (st.K_count * a.K + a.num_steps % a.K)
      st.spk_rec_trunc st.mem_rec_trunc with
  | error p =>
    obtain ⟨e0, evs0⟩ := p
    rw [hw] at h
    simp only [Except.error.injEq, Prod.mk.injEq] at h
    rw [← h.1]
    exact windowLoss_benign hw
  | ok p =>
    obtain ⟨l, evs0⟩ := p
    rw [hw] at h
    simp at h

theorem runStep_benign {σ ι τ γ : Type} {a : Args σ ι τ γ} {ls : Option Bool}
    {tvt : Bool} {rs : Option Bool} {b : Batch ι γ} {step : ℕ}
    {st : LoopState σ τ γ} {e : Err} {evs : List (Event τ γ)}
    (h : runStep a ls tvt rs b step st = .error (e, evs)) :
    e ≠ .valueError kErrMsg := by
  unfold runStep at h
  by_cases hnr : a.net.numReturn = 2 ∨ a.net.numReturn = 3 ∨ a.net.numReturn = 4
  · rw [if_pos hnr] at h
    cases hi : getInput a.time_var b step with
    | error e0 =>
      rw [hi] at h
      simp only [Except.error.injEq, Prod.mk.injEq] at h
      rw [← h.1]
      unfold getInput at hi
      by_cases htv : a.time_var = true
      · rw [if_pos htv] at hi
        cases hd : b.dataAt step with
        | none =>
          rw [hd] at hi
          simp only [Except.error.injEq] at hi
          rw [← hi]
          simp
        | some d =>
          rw [hd] at hi
          simp at hi
      · rw [if_neg htv] at hi
        cases hi
    | ok d =>
      rw [hi] at h
      simp only [] at h
      cases hu : unpackOutputs a.net.numReturn (a.net.forward st.netState d).2 with
      | error e0 =>
        rw [hu] at h
        simp only [Except.error.injEq, Prod.mk.injEq] at h
        rw [← h.1]
        unfold unpackOutputs at hu
        revert hu
        split <;> intro hu <;> cases hu <;> decide
      | ok p =>
        obtain ⟨spk, mem⟩ := p
        rw [hu] at h
        simp only [] at h
        by_cases hcl : st.step_trunc + 1 = a.K
        · rw [if_pos hcl] at h
          exact closeFull_benign h
        · rw [if_neg hcl] at h
          cases h
  · rw [if_neg hnr] at h
    simp only [Except.error.injEq, Prod.mk.injEq] at h
    rw [← h.1]
    simp

theorem runSteps_benign {σ ι τ γ : Type} (a : Args σ ι τ γ) (ls : Option Bool)
    (tvt : Bool) (rs : Option Bool) (b : Batch ι γ) :
    ∀ (n step : ℕ) (st : LoopState σ τ γ) (e : Err) (evs : List (Event τ γ)),
      runSteps a ls tvt rs b n step st = .error (e, evs) →
      e ≠ .valueError kErrMsg := by
  intro n
  induction n with
  | zero => intro step st e evs h; cases h
  | succ n ih =>
    intro step st e evs h
    simp only [runSteps] at h
    cases hrs : runStep a ls tvt rs b step st with
    | error p =>
      obtain ⟨e0, evs0⟩ := p
      rw [hrs] at h
      simp only [Except.error.injEq, Prod.mk.injEq] at h
      rw [← h.1]
      exact runStep_benign hrs
    | ok st1 =>
      rw [hrs] at h
      exact ih (step + 1) st1 e evs h

theorem runBatch_benign {σ ι τ γ : Type} {a : Args σ ι τ γ} {ls : Option Bool}
    {tvt : Bool} {rs : Option Bool} {st : LoopState σ τ γ} {b : Batch ι γ}
    {e : Err} {evs : List (Event τ γ)}
    (h : runBatch a ls tvt rs st b = .error (e, evs)) :
    e ≠ .valueError kErrMsg := by
  unfold runBatch at h
  cases hrs : runSteps a ls tvt rs b a.num_steps 0 (batchStart a st) with
  | error p =>
    obtain ⟨e0, evs0⟩ := p
    rw [hrs] at h
    simp only [Except.error.injEq, Prod.mk.injEq] at h
    rw [← h.1]
    exact runSteps_benign a ls tvt rs b a.num_steps 0 (batchStart a st) e0 evs0 hrs
  | ok st1 =>
    rw [hrs] at h
    simp only [] at h
    by_cases hz : a.num_steps = 0
    · rw [if_pos hz] at h
      simp only [Except.error.injEq, Prod.mk.injEq] at h
      rw [← h.1]
      simp
    · rw [if_neg hz] at h
      by_cases hk : a.K = 0
      · rw [if_pos hk] at h
        simp only [Except.error.injEq, Prod.mk.injEq] at h
        rw [← h.1]
        simp
      · rw [if_neg hk] at h
        by_cases hrem : a.num_steps % a.K ≠ 0
        · rw [if_pos hrem] at h
          exact closeRemainder_benign h
        · rw [if_neg hrem] at h
          cases h

theorem runEpoch_benign {σ ι τ γ : Type} (a : Args σ ι τ γ) (ls : Option Bool)
    (tvt : Bool) (rs : Option Bool) :
    ∀ (dl : List (Batch ι γ)) (st : LoopState σ τ γ) (e : Err)
      (evs : List (Event τ γ)),
      runEpoch a ls tvt rs dl st = .error (e, evs) →
      e ≠ .valueError kErrMsg := by
  intro dl
  induction dl with
  | nil => intro st e evs h; cases h
  | cons b bs ih =>
    intro st e evs h
    simp only [runEpoch] at h
    cases hb : runBatch a ls tvt rs st b with
    | error p =>
      obtain ⟨e0, evs0⟩ := p
      rw [hb] at h
      simp only [Except.error.injEq, Prod.mk.injEq] at h
      rw [← h.1]
      exact runBatch_benign hb
    | ok st1 =>
      rw [hb] at h
      exact ih st1 e evs h

theorem resolveCriterion_ne_error {τ γ : Type} (criterion : Criterion τ γ)
    (e : Err) : resolveCriterion criterion ≠ .error e := by
  simp [resolveCriterion, criterion_dict]

theorem criterionTargets_post {τ γ : Type} (l : ℚ) :
    criterionTargets
      ([.zeroGrad, .backward l, .optStep, .detachHidden] : List (Event τ γ)) = [] := rfl

/-- Claim C1: within a run of `TBPTT`, a batch starts with `step_trunc = 0`
and, for `1 ≤ K ≤ num_steps`, a successfully processed batch performs
exactly `num_steps / K` full-window optimizer steps plus one remainder step
iff `num_steps % K ≠ 0`, i.e. `ceil(num_steps / K)` optimizer steps in
total; in particular one step when `K = num_steps` and `num_steps` steps
when `K = 1`.  The final conjunct shows `step_trunc = 0` again afterwards,
so the premise holds for every batch of the epoch, not only the first. -/
theorem C1_update_count {σ ι τ γ : Type} (a : Args σ ι τ γ) (ls : Option Bool)
    (tvt : Bool) (rs : Option Bool) (b : Batch ι γ) (st st' : LoopState σ τ γ)
    (hK1 : 1 ≤ a.K) (hK2 : a.K ≤ a.num_steps) (hst : st.step_trunc = 0)
    (hrun : runBatch a ls tvt rs st b = .ok st') :
    countOpt st'.events = countOpt st.events +
      (a.num_steps / a.K + if a.num_steps % a.K = 0 then 0 else 1) ∧
    a.num_steps / a.K + (if a.num_steps % a.K = 0 then 0 else 1) =
      (a.num_steps + a.K - 1) / a.K ∧
    (a.K = a.num_steps → countOpt st'.events = countOpt st.events + 1) ∧
    (a.K = 1 → countOpt st'.events = countOpt st.events + a.num_steps) ∧
    st'.step_trunc = 0 := by
  obtain ⟨c1, c2⟩ := runBatch_ok_spec hK1 hst hrun
  refine ⟨c1, ceil_div_split hK1, ?_, ?_, c2⟩
  · intro hEq
    rw [c1, hEq, Nat.div_self (by omega), Nat.mod_self]
    simp
  · intro hEq
    rw [c1, hEq, Nat.div_one, Nat.mod_one]
    simp

/-- A concrete batch run exercising C1: `num_steps = 3`, `K = 2` (one full
window and one remainder window). -/
def w1args : Args Unit Unit Unit ℕ :=
  mkArgs [rangeBatch 10] 3 2 (mkCrit "ce_rate_loss" false 0) none

/-- The state produced by the C1 witness batch. -/
def w1st : LoopState Unit Unit ℕ :=
  stateOrDefault
    (runBatch w1args (some true) false none (initLoopState w1args) (rangeBatch 10))
    (initLoopState w1args)

/-- Witness for C1 at `num_steps = 3`, `K = 2`: two optimizer steps. -/
theorem C1_update_count_witness :
    countOpt w1st.events = countOpt (initLoopState w1args).events +
      (3 / 2 + if 3 % 2 = 0 then 0 else 1) ∧
    w1st.step_trunc = 0 :=
  ⟨(C1_update_count w1args (some true) false none (rangeBatch 10)
      (initLoopState w1args) w1st (by decide) (by decide) rfl rfl).1,
   (C1_update_count w1args (some true) false none (rangeBatch 10)
      (initLoopState w1args) w1st (by decide) (by decide) rfl rfl).2.2.2.2⟩

/-- Evaluation helper: a batch whose step loop succeeded and whose length is
an exact multiple of `K` ends without a remainder close. -/
theorem runBatch_eval_noRem {σ ι τ γ : Type} {a : Args σ ι τ γ}
    {ls : Option Bool} {tvt : Bool} {rs : Option Bool} {st : LoopState σ τ γ}
    {b : Batch ι γ} {st1 : LoopState σ τ γ}
    (hns : a.num_steps ≠ 0) (hK : a.K ≠ 0) (hrem : a.num_steps % a.K = 0)
    (hs : runSteps a ls tvt rs b a.num_steps 0 (batchStart a st) = .ok st1) :
    runBatch a ls tvt rs st b = .ok st1 := by
  unfold runBatch
  rw [hs]
  simp only []
  rw [if_neg hns, if_neg hK, if_neg (fun hc => hc hrem)]

/-- Evaluation helper: a batch with a nonzero remainder ends in the
remainder close applied to the state left by the step loop. -/
theorem runBatch_eval_rem {σ ι τ γ : Type} {a : Args σ ι τ γ}
    {ls : Option Bool} {tvt : Bool} {rs : Option Bool} {st : LoopState σ τ γ}
    {b : Batch ι γ} {st1 : LoopState σ τ γ}
    (hns : a.num_steps ≠ 0) (hK : a.K ≠ 0) (hrem : a.num_steps % a.K ≠ 0)
    (hs : runSteps a ls tvt rs b a.num_steps 0 (batchStart a st) = .ok st1) :
    runBatch a ls tvt rs st b = closeRemainder a ls tvt rs b st1 := by
  unfold runBatch
  rw [hs]
  simp only []
  rw [if_neg hns, if_neg hK, if_pos hrem]

/-- Evaluation helper: peel one successfully processed batch off the epoch
loop. -/
theorem runEpoch_eval_cons {σ ι τ γ : Type} {a : Args σ ι τ γ}
    {ls : Option Bool} {tvt : Bool} {rs : Option Bool} {st st' : LoopState σ τ γ}
    {b : Batch ι γ} {bs : List (Batch ι γ)}
    (hb : runBatch a ls tvt rs st b = .ok st') :
    runEpoch a ls tvt rs (b :: bs) st = runEpoch a ls tvt rs bs st' := by
  show (match runBatch a ls tvt rs st b with
    | .error e => .error e
    | .ok st1 => runEpoch a ls tvt rs bs st1) = runEpoch a ls tvt rs bs st'
  rw [hb]

/-- Evaluation helper: assemble a successful `TBPTT` run from its resolved
criterion and a successful epoch. -/
theorem TBPTT_eval {σ ι τ γ : Type} {a : Args σ ι τ γ} {ls : Option Bool}
    {tvt : Bool} {st' : LoopState σ τ γ}
    (hK : ¬ a.K > a.num_steps)
    (hrc : resolveCriterion a.criterion = .ok (ls, tvt))
    (hep : runEpoch a ls tvt (resolveReg a.regularization) a.dataloader
      (initLoopState a) = .ok st') :
    TBPTT a = .ok (st'.loss_avg, st'.events) := by
  unfold TBPTT
  rw [if_neg hK, hrc]
  simp only []
  rw [hep]

/-- The state of the C2 run after its 10-step loop: three full windows
closed, one step of the remainder window buffered. -/
def c2steps (L : ℚ) : LoopState Unit Unit ℕ :=
  { netState := (), step_trunc := 1, K_count := 3, loss_trunc := 0,
    loss_avg := 0 + L / (((10 : ℕ) : ℚ) / ((3 : ℕ) : ℚ))
      + L / (((10 : ℕ) : ℚ) / ((3 : ℕ) : ℚ))
      + L / (((10 : ℕ) : ℚ) / ((3 : ℕ) : ℚ)),
    spk_rec_trunc := [()], mem_rec_trunc := [()],
    events := [.resetNet, .batchLoad, .resetNet,
      .forwardPass 0, .forwardPass 1, .forwardPass 2,
      .criterionCall [(), (), ()] (List.range 10), .zeroGrad,
      .backward (0 + L), .optStep, .detachHidden,
      .forwardPass 3, .forwardPass 4, .forwardPass 5,
      .criterionCall [(), (), ()] (List.range 10), .zeroGrad,
      .backward (0 + L), .optStep, .detachHidden,
      .forwardPass 6, .forwardPass 7, .forwardPass 8,
      .criterionCall [(), (), ()] (List.range 10), .zeroGrad,
      .backward (0 + L), .optStep, .detachHidden,
      .forwardPass 9] }

/-- The final state of the C2 run, after the remainder close. -/
def c2final (L : ℚ) : LoopState Unit Unit ℕ :=
  { netState := (), step_trunc := 0, K_count := 0, loss_trunc := 0,
    loss_avg := 0 + L / (((10 : ℕ) : ℚ) / ((3 : ℕ) : ℚ))
      + L / (((10 : ℕ) : ℚ) / ((3 : ℕ) : ℚ))
      + L / (((10 : ℕ) : ℚ) / ((3 : ℕ) : ℚ))
      + L / (((10 % 3 : ℕ) : ℚ)),
    spk_rec_trunc := [], mem_rec_trunc := [],
    events := [.resetNet, .batchLoad, .resetNet,
      .forwardPass 0, .forwardPass 1, .forwardPass 2,
      .criterionCall [(), (), ()] (List.range 10), .zeroGrad,
      .backward (0 + L), .optStep, .detachHidden,
      .forwardPass 3, .forwardPass 4, .forwardPass 5,
      .criterionCall [(), (), ()] (List.range 10), .zeroGrad,
      .backward (0 + L), .optStep, .detachHidden,
      .forwardPass 6, .forwardPass 7, .forwardPass 8,
      .criterionCall [(), (), ()] (List.range 10), .zeroGrad,
      .backward (0 + L), .optStep, .detachHidden,
      .forwardPass 9,
      .criterionCall [()] (List.range 10), .zeroGrad,
      .backward (0 + L), .optStep, .detachHidden] }

set_option maxHeartbeats 1600000 in
/-- Claim C2: with one batch, `num_steps = 10`, `K = 3` and every window
loss equal to `L`, `TBPTT` returns
`3 * (L / (10/3)) + L / (10 % 3) = 3 * (0.3 * L) + 1.0 * L = 1.9 * L`:
each full window is weighted by `1 / (num_steps / K)` with true division
and the remainder window by `1 / (num_steps % K)` — the exact
non-normalized weighting of the accumulated epoch loss, not a mean over
the four windows. -/
theorem C2_weighted_loss (L : ℚ) :
    lossOf (TBPTT (c2args L)) = some ((19 : ℚ) / 10 * L) := by
  have hs : runSteps (c2args L) (some true) false none (rangeBatch 10)
      (c2args L).num_steps 0 (batchStart (c2args L) (initLoopState (c2args L)))
      = .ok (c2steps L) := rfl
  have hrem : closeRemainder (c2args L) (some true) false none (rangeBatch 10)
      (c2steps L) = .ok (c2final L) := rfl
  have hb : runBatch (c2args L) (some true) false none
      (initLoopState (c2args L)) (rangeBatch 10) = .ok (c2final L) := by
    rw [runBatch_eval_rem (by norm_num : (10 : ℕ) ≠ 0) (by norm_num : (3 : ℕ) ≠ 0)
      (by norm_num : (10 : ℕ) % 3 ≠ 0) hs, hrem]
  have hep : runEpoch (c2args L) (some true) false none
      (c2args L).dataloader (initLoopState (c2args L)) = .ok (c2final L) := by
    rw [show (c2args L).dataloader = [rangeBatch 10] from rfl,
      runEpoch_eval_cons hb]
    rfl
  rw [TBPTT_eval (by norm_num : ¬ (3 : ℕ) > 10) rfl hep]
  show some (c2final L).loss_avg = some ((19 : ℚ) / 10 * L)
  have hval : (c2final L).loss_avg = (19 : ℚ) / 10 * L := by
    show (0 : ℚ) + L / (((10 : ℕ) : ℚ) / ((3 : ℕ) : ℚ))
      + L / (((10 : ℕ) : ℚ) / ((3 : ℕ) : ℚ))
      + L / (((10 : ℕ) : ℚ) / ((3 : ℕ) : ℚ))
      + L / (((10 % 3 : ℕ) : ℚ)) = (19 : ℚ) / 10 * L
    push_cast
    ring
  rw [hval]

/-- Claim C3 (divergence): the criterion name check is dead code.  With the
unrecognized name `"unknown_loss"` the resolution still returns
successfully (`counter` is decremented on every key, so the `TypeError`
never fires) with `loss_spk` left unbound; `TBPTT` then resets, loads a
batch, runs a forward pass, and only crashes with an
`UnboundLocalError`-style `NameError` on `loss_spk` at the first window
close — after a forward pass, and not with the configuration error the
claim requires. -/
theorem C3_dead_check_divergence :
    resolveCriterion c3crit = .ok (none, false) ∧
    TBPTT c3args = .error (.nameError "loss_spk",
      [.resetNet, .batchLoad, .resetNet, .forwardPass 0]) :=
  ⟨rfl, rfl⟩

/-- Counterexample to C4 as stated: with the unrecognized regularizer name
`"unknown_reg"`, the run does not proceed to completion — it aborts with an
`UnboundLocalError`-style `NameError` on `reg_spk` at the first window
close (after the criterion call), while the identical run without a
regularizer returns loss `0`. -/
theorem C4_counterexample :
    TBPTT c4args = .error (.nameError "reg_spk",
      [.resetNet, .batchLoad, .resetNet, .forwardPass 0,
       .criterionCall [()] (List.range 10)]) ∧
    lossOf (TBPTT c4argsNoReg) = some 0 := by
  refine ⟨rfl, ?_⟩
  have h : lossOf (TBPTT c4argsNoReg) =
      some ((0 : ℚ) + (0 : ℚ) / (((1 : ℕ) : ℚ) / ((1 : ℕ) : ℚ))) := rfl
  rw [h]
  norm_num

/-- Claim C4 (amended): when a regularizer is supplied whose registered
name is not `"l1_rate_sparsity"`, `reg_spk` is never assigned, and every
window close fails with a `NameError` on `reg_spk` right after the
criterion call — training aborts instead of proceeding with a zero
penalty. -/
theorem C4_unknown_reg_raises {σ ι τ γ : Type} (a : Args σ ι τ γ) (lb : Bool)
    (tvt : Bool) (b : Batch ι γ) (st : LoopState σ τ γ) (r : Regularizer τ)
    (hreg : a.regularization = some r) (hname : r.name ≠ "l1_rate_sparsity") :
    closeFull a (some lb) tvt (resolveReg a.regularization) b st =
      .error (.nameError "reg_spk",
        st.events ++ [.criterionCall
          (if lb then st.spk_rec_trunc else st.mem_rec_trunc)
          (if tvt then
            pySlice b.targets (st.K_count * a.K) ((st.K_count + 1) * a.K)
           else b.targets)]) := by
  have hrs : resolveReg a.regularization = none := by
    rw [hreg]
    show (if ("l1_rate_sparsity" : String) = r.name then some true else none) = none
    rw [if_neg (fun hh => hname hh.symm)]
  have hcrit : critLoss a.criterion (some lb) tvt b.targets (st.K_count * a.K)
      ((st.K_count + 1) * a.K) st.spk_rec_trunc st.mem_rec_trunc =
      .ok (a.criterion.app (if lb then st.spk_rec_trunc else st.mem_rec_trunc)
        (if tvt then pySlice b.targets (st.K_count * a.K) ((st.K_count + 1) * a.K)
         else b.targets),
        [.criterionCall (if lb then st.spk_rec_trunc else st.mem_rec_trunc)
          (if tvt then pySlice b.targets (st.K_count * a.K) ((st.K_count + 1) * a.K)
           else b.targets)]) := by
    cases tvt <;> cases lb <;> simp [critLoss]
  have hwl : windowLoss a.criterion a.regularization (some lb)
      (resolveReg a.regularization) tvt b.targets (st.K_count * a.K)
      ((st.K_count + 1) * a.K) st.spk_rec_trunc st.mem_rec_trunc =
      .error (.nameError "reg_spk",
        [.criterionCall (if lb then st.spk_rec_trunc else st.mem_rec_trunc)
          (if tvt then pySlice b.targets (st.K_count * a.K) ((st.K_count + 1) * a.K)
           else b.targets)]) := by
    rw [hrs, hreg]
    unfold windowLoss
    rw [hcrit]
  unfold closeFull
  rw [hwl]

/-- A state with three buffered outputs, used to instantiate the amended C4
and the C5 slice lemma at a window close. -/
def wClose : LoopState Unit Unit ℕ :=
  { netState := (), step_trunc := 3, K_count := 1, loss_trunc := 0,
    loss_avg := 0, spk_rec_trunc := [(), (), ()], mem_rec_trunc := [(), (), ()],
    events := [] }

/-- Witness for the amended C4, at a concrete window close of the C4 run. -/
theorem C4_unknown_reg_raises_witness :
    closeFull c4args (some true) false (resolveReg c4args.regularization)
      (rangeBatch 10) wClose =
      .error (.nameError "reg_spk",
        wClose.events ++ [.criterionCall
          (if true then wClose.spk_rec_trunc else wClose.mem_rec_trunc)
          (if false then
            pySlice (rangeBatch 10).targets (wClose.K_count * c4args.K)
              ((wClose.K_count + 1) * c4args.K)
           else (rangeBatch 10).targets)]) :=
  C4_unknown_reg_raises c4args true false (rangeBatch 10) wClose
    { name := "unknown_reg", app := fun _ => 5 } rfl (by decide)

/-- Claim C5: a window close with time-varying targets hands the criterion
exactly the slice `targets[K_count*K : K_count*K + window_length]`: a full
window (length `K`) gets `targets[K_count*K : (K_count+1)*K]` and the
remainder window (length `num_steps % K`) gets
`targets[K_count*K : K_count*K + num_steps % K]`.  The closed conjunct runs
`TBPTT` with `num_steps = 10`, `K = 3` and targets `[0, ..., 9]`: the four
windows receive `[0,1,2]`, `[3,4,5]` (window index 1 gets `targets[3:6]`),
`[6,7,8]` and `[9]`. -/
theorem C5_target_slices {σ ι τ γ : Type} (a : Args σ ι τ γ) (ls rs : Option Bool)
    (b : Batch ι γ) (st st' : LoopState σ τ γ) :
    (closeFull a ls true rs b st = .ok st' →
      criterionTargets st'.events = criterionTargets st.events ++
        [pySlice b.targets (st.K_count * a.K) ((st.K_count + 1) * a.K)]) ∧
    (closeRemainder a ls true rs b st = .ok st' →
      criterionTargets st'.events = criterionTargets st.events ++
        [pySlice b.targets (st.K_count * a.K) (st.K_count * a.K + a.num_steps % a.K)]) ∧
    criterionTargets (traceOf (TBPTT c5args)) =
      [[0, 1, 2], [3, 4, 5], [6, 7, 8], [9]] := by
  refine ⟨?_, ?_, rfl⟩
  · intro h
    unfold closeFull at h
    cases hw : windowLoss a.criterion a.regularization ls rs true b.targets
        (st.K_count * a.K) ((st.K_count + 1) * a.K)
        st.spk_rec_trunc st.mem_rec_trunc with
    | error p => rw [hw] at h; obtain ⟨e1, e2⟩ := p; cases h
    | ok p =>
      obtain ⟨l, evs⟩ := p
      rw [hw] at h
      simp only [Except.ok.injEq] at h
      subst h
      show criterionTargets (st.events ++ evs ++ _) = _
      rw [criterionTargets_append, criterionTargets_append,
        (windowLoss_ok_spec hw).2 rfl, criterionTargets_post, List.append_nil]
  · intro h
    unfold closeRemainder at h
    cases hw : windowLoss a.criterion a.regularization ls rs true b.targets
        (st.K_count * a.K) (st.K_count * a.K + a.num_steps % a.K)
        st.spk_rec_trunc st.mem_rec_trunc with
    | error p => rw [hw] at h; obtain ⟨e1, e2⟩ := p; cases h
    | ok p =>
      obtain ⟨l, evs⟩ := p
      rw [hw] at h
      simp only [Except.ok.injEq] at h
      subst h
      show criterionTargets (st.events ++ evs ++ _) = _
      rw [criterionTargets_append, criterionTargets_append,
        (windowLoss_ok_spec hw).2 rfl, criterionTargets_post, List.append_nil]

/-- The state after the C5 witness close. -/
def w5post : LoopState Unit Unit ℕ :=
  stateOrDefault (closeFull c5args (some false) true none (rangeBatch 10) wClose)
    wClose

/-- Witness for C5: a concrete full-window close with `K_count = 1` and
`K = 3` hands the criterion `targets[3:6]`. -/
theorem C5_target_slices_witness :
    criterionTargets w5post.events = criterionTargets wClose.events ++
      [pySlice (rangeBatch 10).targets (wClose.K_count * c5args.K)
        ((wClose.K_count + 1) * c5args.K)] :=
  (C5_target_slices c5args (some false) none (rangeBatch 10) wClose w5post).1 rfl

/-- Claim C6 (divergence): `K_count` is only reset on the remainder path,
so with `num_steps = 2`, `K = 2` (no remainder) and two batches, the second
batch starts with `K_count = 1`, not `0`: its (only) window receives the
slice `targets[2:4] = []` instead of `targets[0:2] = [20, 21]`.  The first
conjunct evaluates the full `TBPTT` trace, the second exposes
`K_count = 1` at the end of the first batch (the value in force when the
second batch starts), and the third records the slice the claim expected. -/
theorem C6_window_index_not_reset :
    criterionTargets (traceOf (TBPTT c6args)) = [[10, 11], []] ∧
    kcAfter (runBatch c6args (some false) true none (initLoopState c6args) c6b1)
      = some 1 ∧
    pySlice c6b2.targets 0 2 = [20, 21] :=
  ⟨rfl, rfl, rfl⟩

/-- Claim C7: through the step loop, the spike and membrane truncation
buffers hold exactly `step_trunc` elements (given that invariant on entry,
one successful step preserves it), `step_trunc` either increments by one or
resets to `0` exactly when the window closes at `K`, and immediately after
a close — the every-`K`-steps close or the remainder close — both buffers
are empty and `step_trunc = 0`. -/
theorem C7_buffer_invariant {σ ι τ γ : Type} (a : Args σ ι τ γ) (ls : Option Bool)
    (tvt : Bool) (rs : Option Bool) (b : Batch ι γ) (step : ℕ)
    (st st' : LoopState σ τ γ)
    (hspk : st.spk_rec_trunc.length = st.step_trunc)
    (hmem : st.mem_rec_trunc.length = st.step_trunc) :
    (runStep a ls tvt rs b step st = .ok st' →
      st'.spk_rec_trunc.length = st'.step_trunc ∧
      st'.mem_rec_trunc.length = st'.step_trunc ∧
      st'.step_trunc = (if st.step_trunc + 1 = a.K then 0 else st.step_trunc + 1) ∧
      (st.step_trunc + 1 = a.K →
        st'.spk_rec_trunc = [] ∧ st'.mem_rec_trunc = [] ∧ st'.step_trunc = 0)) ∧
    (closeRemainder a ls tvt rs b st = .ok st' →
      st'.spk_rec_trunc = [] ∧ st'.mem_rec_trunc = [] ∧ st'.step_trunc = 0) := by
  constructor
  · intro h
    obtain ⟨h1, _, _, h4, h5, h6⟩ := runStep_ok_spec h
    by_cases hcl : st.step_trunc + 1 = a.K
    · obtain ⟨e1, e2, _⟩ := h6 hcl
      refine ⟨?_, ?_, h1, fun _ => ⟨e1, e2, by rw [h1, if_pos hcl]⟩⟩
      · rw [e1, h1, if_pos hcl]; rfl
      · rw [e2, h1, if_pos hcl]; rfl
    · refine ⟨?_, ?_, h1, fun hk => absurd hk hcl⟩
      · rw [h4, if_neg hcl, hspk, h1, if_neg hcl]
      · rw [h5, if_neg hcl, hmem, h1, if_neg hcl]
  · intro h
    obtain ⟨r1, r2, r3, _, _, _⟩ := closeRemainder_ok_spec h
    exact ⟨r2, r3, r1⟩

/-- The state after the C7 witness step. -/
def w7st : LoopState Unit Unit ℕ :=
  stateOrDefault
    (runStep w1args (some true) false none (rangeBatch 10) 0 (initLoopState w1args))
    (initLoopState w1args)

/-- Witness for C7 at a concrete non-closing step (`step_trunc` goes from
`0` to `1` and both buffers then hold one element). -/
theorem C7_buffer_invariant_witness :
    w7st.spk_rec_trunc.length = w7st.step_trunc ∧
    w7st.mem_rec_trunc.length = w7st.step_trunc ∧
    w7st.step_trunc = (if (initLoopState w1args).step_trunc + 1 = w1args.K then 0
      else (initLoopState w1args).step_trunc + 1) ∧
    ((initLoopState w1args).step_trunc + 1 = w1args.K →
      w7st.spk_rec_trunc = [] ∧ w7st.mem_rec_trunc = [] ∧ w7st.step_trunc = 0) :=
  (C7_buffer_invariant w1args (some true) false none (rangeBatch 10) 0
    (initLoopState w1args) w7st rfl rfl).1 rfl

/-- Counterexample to C8 as stated: `K = 0` with `num_steps = 1` violates
the precondition `1 ≤ K ≤ num_steps`, yet `TBPTT` does not fail with the
`ValueError` — the guard only checks `K > num_steps`.  The run resets,
loads a batch, executes a forward pass, and then dies with
`ZeroDivisionError` at the `num_steps % K` remainder check — after a
forward pass and a state reset. -/
theorem C8_counterexample :
    TBPTT c8args = .error (.zeroDivisionError,
      [.resetNet, .batchLoad, .resetNet, .forwardPass 0]) ∧
    ¬ (1 ≤ c8args.K) :=
  ⟨rfl, by decide⟩

/-- Claim C8 (amended): `TBPTT` fails with
`ValueError ("K must be less than or equal to num_steps.")` exactly when
`K > num_steps` — only the upper bound of the precondition is checked — and
when it does, the event trace is empty: no state reset, no dataloader
access and no forward pass has happened. -/
theorem C8_guard_exact {σ ι τ γ : Type} (a : Args σ ι τ γ) :
    (a.num_steps < a.K → TBPTT a = .error (.valueError kErrMsg, [])) ∧
    (∀ evts : List (Event τ γ),
      TBPTT a = .error (.valueError kErrMsg, evts) → a.num_steps < a.K) := by
  constructor
  · intro h
    unfold TBPTT
    rw [if_pos h]
  · intro evts h
    by_cases hK : a.num_steps < a.K
    · exact hK
    · exfalso
      unfold TBPTT at h
      rw [if_neg hK] at h
      cases hrc : resolveCriterion a.criterion with
      | error e => exact resolveCriterion_ne_error a.criterion e hrc
      | ok p =>
        obtain ⟨ls, tvt⟩ := p
        rw [hrc] at h
        simp only [] at h
        cases hre : runEpoch a ls tvt (resolveReg a.regularization)
            a.dataloader (initLoopState a) with
        | error p2 =>
          obtain ⟨e0, evs0⟩ := p2
          rw [hre] at h
          simp only [Except.error.injEq, Prod.mk.injEq] at h
          exact runEpoch_benign a ls tvt (resolveReg a.regularization)
            a.dataloader (initLoopState a) e0 evs0 hre h.1
        | ok stf =>
          rw [hre] at h
          cases h

/-- Arguments with `K = 2 > num_steps = 1`, for the C8 witness. -/
def w8args : Args Unit Unit Unit ℕ :=
  mkArgs [rangeBatch 10] 1 2 (mkCrit "ce_rate_loss" false 0) none

/-- Witness for the amended C8: `K = 2 > num_steps = 1` fails immediately
with the `ValueError` and an empty trace. -/
theorem C8_guard_exact_witness :
    TBPTT w8args = .error (.valueError kErrMsg, []) :=
  (C8_guard_exact w8args).1 (by decide)

/-- Claim C9: `BPTT` is literally `TBPTT` with `K = num_steps` and `RTRL`
is literally `TBPTT` with `K = 1`, on all arguments.  Moreover, with
`K = num_steps ≥ 1` a batch is exactly its step loop — the remainder path
never runs since `num_steps % num_steps = 0` — and performs exactly one
optimizer step, while with `K = 1` a successful batch performs exactly
`num_steps` optimizer steps (one per time step). -/
theorem C9_delegation {σ ι τ γ : Type} (net : Net σ ι τ) (dl : List (Batch ι γ))
    (ns : ℕ) (crit : Criterion τ γ) (tv : Bool) (reg : Option (Regularizer τ)) :
    BPTT net dl ns crit tv reg =
      TBPTT { net := net, dataloader := dl, num_steps := ns, criterion := crit,
              time_var := tv, regularization := reg, K := ns } ∧
    RTRL net dl ns crit tv reg =
      TBPTT { net := net, dataloader := dl, num_steps := ns, criterion := crit,
              time_var := tv, regularization := reg, K := 1 } ∧
    (∀ a : Args σ ι τ γ, a.K = a.num_steps → 1 ≤ a.num_steps →
      ∀ (ls : Option Bool) (tvt : Bool) (rs : Option Bool)
        (st : LoopState σ τ γ) (b : Batch ι γ),
      runBatch a ls tvt rs st b =
        runSteps a ls tvt rs b a.num_steps 0 (batchStart a st)) ∧
    (∀ a : Args σ ι τ γ, a.K = a.num_steps → 1 ≤ a.num_steps →
      ∀ (ls : Option Bool) (tvt : Bool) (rs : Option Bool)
        (st : LoopState σ τ γ) (b : Batch ι γ) (st' : LoopState σ τ γ),
      st.step_trunc = 0 → runBatch a ls tvt rs st b = .ok st' →
      countOpt st'.events = countOpt st.events + 1) ∧
    (∀ a : Args σ ι τ γ, a.K = 1 → 1 ≤ a.num_steps →
      ∀ (ls : Option Bool) (tvt : Bool) (rs : Option Bool)
        (st : LoopState σ τ γ) (b : Batch ι γ) (st' : LoopState σ τ γ),
      st.step_trunc = 0 → runBatch a ls tvt rs st b = .ok st' →
      countOpt st'.events = countOpt st.events + a.num_steps) := by
  refine ⟨rfl, rfl, ?_, ?_, ?_⟩
  · intro a hK hns ls tvt rs st b
    unfold runBatch
    cases hrs : runSteps a ls tvt rs b a.num_steps 0 (batchStart a st) with
    | error e => rfl
    | ok st1 =>
      simp only []
      rw [if_neg (by omega : ¬ a.num_steps = 0),
        if_neg (by omega : ¬ a.K = 0)]
      have hm : a.num_steps % a.K = 0 := by rw [hK]; exact Nat.mod_self _
      rw [if_neg (fun hc => hc hm)]
  · intro a hK hns ls tvt rs st b st' hst h
    have := (runBatch_ok_spec (by omega) hst h).1
    rw [this, hK, Nat.div_self (by omega), Nat.mod_self]
    simp
  · intro a hK hns ls tvt rs st b st' hst h
    have := (runBatch_ok_spec (by omega) hst h).1
    rw [this, hK, Nat.div_one, Nat.mod_one]
    simp

/-- Arguments with `K = 1`, `num_steps = 2`, for the C9 witness. -/
def w9args : Args Unit Unit Unit ℕ :=
  mkArgs [rangeBatch 10] 2 1 (mkCrit "ce_rate_loss" false 0) none

/-- The state after the C9 witness batch. -/
def w9st : LoopState Unit Unit ℕ :=
  stateOrDefault
    (runBatch w9args (some true) false none (initLoopState w9args) (rangeBatch 10))
    (initLoopState w9args)

/-- Witness for C9: with `K = 1` and `num_steps = 2`, the batch performs
exactly two optimizer steps. -/
theorem C9_delegation_witness :
    countOpt w9st.events = countOpt (initLoopState w9args).events + w9args.num_steps :=
  (C9_delegation unitNet [rangeBatch 10] 2 (mkCrit "ce_rate_loss" false 0)
    false none).2.2.2.2 w9args rfl (by decide) (some true) false none
    (initLoopState w9args) (rangeBatch 10) w9st rfl rfl

/-- Counterexample to C10 as stated: `BPTF`'s body is only a docstring, so
a call returns Python `None` with no error — it does not fail with
`NotImplemented`; it also touches no collaborator (empty trace), while
`TBPTT` on the same arguments performs an optimizer step, so the two are
observably distinct. -/
theorem C10_counterexample :
    BPTF c10args = .ok (none, []) ∧
    countOpt (traceOf (TBPTT c10args)) = 1 :=
  ⟨rfl, rfl⟩

/-- Claim C10 (amended): `BPTF` is an unimplemented stub: for every input
it performs no forward pass, no backward pass and no optimizer update
(empty trace) and is not aliased to `TBPTT` — but instead of raising
`NotImplemented` it silently returns `None`. -/
theorem C10_stub_returns_none {σ ι τ γ : Type} (a : Args σ ι τ γ) :
    BPTF a = .ok (none, []) := rfl
